import Mathlib

/-!
Shallow embedding of `TEMPer.py`, a USB HID thermometer monitor.

Modelling conventions:
* Python byte lists (results of `hid.read`, report payloads) are `List Nat`
  whose elements are byte values.
* Python floats are modelled by `ℚ`.  Every arithmetic operation performed by
  the program on temperature values is exact in IEEE double precision
  (a 16-bit integer divided by 256, multiplied by 1.0, plus 0.0), so the
  rational model computes exactly the values the program computes, and the
  range comparisons agree.
* Raised exceptions are modelled by `Except`; the Python exception classes
  that the `main` loop dispatches on are the inductive `PyExc`
  (`OSError` — note that in Python 3 `IOError` is an alias of `OSError` —
  `ValueError`, any other `Exception`, and `KeyboardInterrupt`, which is not
  an `Exception`).
* The external HID library is modelled as environment data: the list of
  descriptors `hid.enumerate` reports, the outcome of `open_path`, and the
  write/read results of one exchange (`DevIO`).
-/

/-! ### Constants (TEMPer.py lines 8-14) -/

def VENDOR_ID : Nat := 0x0C45

def PRODUCT_ID : Nat := 0x7401

def USAGE_PAGE_SENSOR : Nat := 0xFF00

def USAGE_SENSOR : Nat := 0x01

def SCALE : ℚ := 1

def OFFSET : ℚ := 0

/-! ### FrameDecoder (`decode_temp_from_report`, lines 33-45) -/

/-- Result of `struct.unpack(">h", bytes([hi, lo]))[0]`: the two bytes as a
signed big-endian 16-bit integer. -/
def unpack_s16be (hi lo : Nat) : Int :=
  if hi * 256 + lo < 32768 then ((hi * 256 + lo : Nat) : Int)
  else ((hi * 256 + lo : Nat) : Int) - 65536

deriving instance DecidableEq for Except

inductive DecodeErr where
  | tooShort
deriving DecidableEq

/-- `decode_temp_from_report(data)`: raises `ValueError` (modelled as
`.error .tooShort`) when fewer than 4 bytes, otherwise decodes bytes 2-3 as
signed big-endian 16-bit, divides by 256.0 and applies the affine
calibration. -/
def decode_temp_from_report (data : List Nat) : Except DecodeErr ℚ :=
  if data.length < 4 then
    .error .tooShort
  else
    let temp_raw : Int := unpack_s16be (data.getD 2 0) (data.getD 3 0)
    let celsius : ℚ := (temp_raw : ℚ) / 256
    .ok (celsius * SCALE + OFFSET)

/-! ### SensorSession (`read_temperature`, lines 48-69) -/

/-- The 64-byte command frame: `buf = [0x00,0x01,0x80,0x33,0x01,0,0,0,0]`
extended by `[0x00] * (64 - len(buf))`. -/
def commandFrame : List Nat :=
  let buf : List Nat := [0x00, 0x01, 0x80, 0x33, 0x01, 0x00, 0x00, 0x00, 0x00]
  buf ++ List.replicate (64 - buf.length) 0

/-- Behaviour of the open device during one exchange: what `dev.write`
returns and what `dev.read` returns. -/
structure DevIO where
  writeResult : Int
  readData : List Nat

/-- Transport-level actions of one exchange, in the order they are
performed. -/
inductive IoEv where
  | write (buf : List Nat)
  | sleepMs (ms : Nat)
  | read (maxLen timeoutMs : Nat)
deriving DecidableEq

/-- Message carried by the `OSError`s that `read_temperature` raises. -/
inductive OsMsg where
  | writeFailed
  | timeout
deriving DecidableEq

/-- Python exception classes as dispatched by `main`'s handlers. -/
inductive PyExc where
  | osError (m : OsMsg)
  | valueError
  | otherExc
  | keyboardInterrupt
deriving DecidableEq

/-- `read_temperature(dev)`: write the command frame (raise `OSError` if
`written <= 0`), sleep 0.1 s, read up to 64 bytes with a 1000 ms timeout
(raise `OSError` if no data), keep the first 8 bytes, decode them.
Returns the trace of transport actions together with the outcome. -/
def read_temperature (io : DevIO) : List IoEv × Except PyExc (ℚ × List Nat) :=
  if io.writeResult ≤ 0 then
    ([.write commandFrame], .error (.osError .writeFailed))
  else
    let evs : List IoEv := [.write commandFrame, .sleepMs 100, .read 64 1000]
    if io.readData = [] then
      (evs, .error (.osError .timeout))
    else
      let data8 := io.readData.take 8
      match decode_temp_from_report data8 with
      | .error _ => (evs, .error .valueError)
      | .ok t => (evs, .ok (t, data8))

/-! ### Reporting of one reading (lines 90-93) -/

inductive ReportLine where
  | reading (t : ℚ) (raw : List Nat)
  | warnOutOfRange (t : ℚ) (raw : List Nat)
deriving DecidableEq

/-- The line printed for a decoded value: normal reading line when
`-40.0 <= temp_c <= 125.0`, warning line otherwise; both carry the value
and the raw report. -/
def report_line (t : ℚ) (raw : List Nat) : ReportLine :=
  if -40 ≤ t ∧ t ≤ 125 then .reading t raw else .warnOutOfRange t raw

def ReportLine.value : ReportLine → ℚ
  | .reading t _ => t
  | .warnOutOfRange t _ => t

def ReportLine.rawReport : ReportLine → List Nat
  | .reading _ raw => raw
  | .warnOutOfRange _ raw => raw

/-! ### Claims about the decoder -/

/-- C3: for every report of at least 4 bytes, `decode_temp_from_report`
interprets bytes 2 and 3 as a signed big-endian 16-bit integer, divides by
256 and applies the affine calibration; `unpack_s16be` is indeed the signed
16-bit reading (the unique representative of `hi*256+lo` modulo 2^16 in
`[-32768, 32768)`); raw 6400 = bytes 0x19,0x00 gives 25 and raw -512 =
bytes 0xFE,0x00 gives -2 under the identity calibration. -/
theorem c3_decode_value :
    (∀ data : List Nat, 4 ≤ data.length →
      decode_temp_from_report data =
        .ok (((unpack_s16be (data.getD 2 0) (data.getD 3 0) : ℚ) / 256) * SCALE + OFFSET)) ∧
    (∀ hi lo : Nat, hi < 256 → lo < 256 →
      -32768 ≤ unpack_s16be hi lo ∧ unpack_s16be hi lo < 32768 ∧
      unpack_s16be hi lo % 65536 = ((hi : Int) * 256 + lo) % 65536) ∧
    unpack_s16be 0x19 0x00 = 6400 ∧
    decode_temp_from_report [0x80, 0x02, 0x19, 0x00] = .ok 25 ∧
    unpack_s16be 0xFE 0x00 = -512 ∧
    decode_temp_from_report [0x80, 0x02, 0xFE, 0x00] = .ok (-2) := by
  refine ⟨?_, ?_, by decide,
    by norm_num [decode_temp_from_report, unpack_s16be, SCALE, OFFSET], by decide,
    by norm_num [decode_temp_from_report, unpack_s16be, SCALE, OFFSET]⟩
  · intro data hlen
    have h : ¬ data.length < 4 := Nat.not_lt.mpr hlen
    simp [decode_temp_from_report, h]
  · intro hi lo hhi hlo
    unfold unpack_s16be
    split <;> refine ⟨by omega, by omega, by omega⟩

theorem c3_decode_value_witness :
    4 ≤ ([0x80, 0x02, 0x19, 0x00] : List Nat).length ∧
    decode_temp_from_report [0x80, 0x02, 0x19, 0x00] =
      .ok (((unpack_s16be 0x19 0x00 : ℚ) / 256) * SCALE + OFFSET) :=
  ⟨by decide, c3_decode_value.1 [0x80, 0x02, 0x19, 0x00] (by decide)⟩

/-- C4: `decode_temp_from_report` fails exactly when the report is shorter
than 4 bytes; a 3-byte input fails, a 4-byte input succeeds. -/
theorem c4_decode_length :
    (∀ data : List Nat,
      (decode_temp_from_report data = .error .tooShort ↔ data.length < 4) ∧
      ((∃ t, decode_temp_from_report data = .ok t) ↔ 4 ≤ data.length)) ∧
    decode_temp_from_report [1, 2, 3] = .error .tooShort ∧
    decode_temp_from_report [1, 2, 3, 4] = .ok (193 / 64) := by
  refine ⟨?_, by decide,
    by norm_num [decode_temp_from_report, unpack_s16be, SCALE, OFFSET]⟩
  intro data
  unfold decode_temp_from_report
  split <;> rename_i h
  · exact ⟨⟨fun _ => h, fun _ => rfl⟩,
      ⟨fun ⟨t, ht⟩ => by simp_all, fun hle => absurd hle (by omega)⟩⟩
  · exact ⟨⟨fun hc => by simp_all, fun hlt => absurd hlt h⟩,
      ⟨fun _ => by omega, fun _ => ⟨_, rfl⟩⟩⟩

theorem c4_decode_length_witness :
    (decode_temp_from_report [9, 9, 9] = .error .tooShort ↔
      ([9, 9, 9] : List Nat).length < 4) ∧
    ((∃ t, decode_temp_from_report [9, 9, 9] = .ok t) ↔
      4 ≤ ([9, 9, 9] : List Nat).length) :=
  c4_decode_length.1 [9, 9, 9]

/-! ### Claims about one exchange and about reporting -/

/-- C5: the command frame is the 9 logical bytes zero-padded to 64; the
exchange performs, in order, the write, a 100 ms settle delay, then a read
of up to 64 bytes with 1000 ms timeout; the write fails iff `written <= 0`,
the read times out iff it returns no data, and on success the returned
RawReport is exactly the first 8 bytes of the data read. -/
theorem c5_exchange_protocol :
    commandFrame = [0x00, 0x01, 0x80, 0x33, 0x01, 0x00, 0x00, 0x00, 0x00] ++
      List.replicate 55 0 ∧
    commandFrame.length = 64 ∧
    (∀ io : DevIO,
      ((read_temperature io).2 = .error (.osError .writeFailed) ↔ io.writeResult ≤ 0) ∧
      ((read_temperature io).2 = .error (.osError .timeout) ↔
        0 < io.writeResult ∧ io.readData = []) ∧
      (read_temperature io).1 =
        (if io.writeResult ≤ 0 then [IoEv.write commandFrame]
         else [IoEv.write commandFrame, IoEv.sleepMs 100, IoEv.read 64 1000]) ∧
      (∀ t raw, (read_temperature io).2 = .ok (t, raw) → raw = io.readData.take 8)) := by
  refine ⟨by decide, by decide, ?_⟩
  intro io
  unfold read_temperature
  rcases le_or_lt io.writeResult 0 with hw | hw
  · simp [hw]
  · have hw' : ¬ io.writeResult ≤ 0 := not_le.mpr hw
    by_cases hr : io.readData = []
    · simp [hw', hr, hw]
    · rcases hdec : decode_temp_from_report (io.readData.take 8) with e | v <;>
        simp [hw', hr, hw, hdec]

theorem c5_exchange_protocol_witness :
    ((read_temperature ⟨1, [0, 0, 0x19, 0x00, 0, 0, 0, 0, 7, 7]⟩).2 =
      .ok (25, [0, 0, 0x19, 0x00, 0, 0, 0, 0])) ∧
    [0, 0, 0x19, 0x00, 0, 0, 0, 0] =
      ([0, 0, 0x19, 0x00, 0, 0, 0, 0, 7, 7] : List Nat).take 8 := by
  have hio : (read_temperature ⟨1, [0, 0, 0x19, 0x00, 0, 0, 0, 0, 7, 7]⟩).2 =
      .ok (25, [0, 0, 0x19, 0x00, 0, 0, 0, 0]) := by
    simp [read_temperature, decode_temp_from_report, unpack_s16be, SCALE, OFFSET]
    norm_num
  exact ⟨hio,
    (c5_exchange_protocol.2.2 ⟨1, [0, 0, 0x19, 0x00, 0, 0, 0, 0, 7, 7]⟩).2.2.2 25
      [0, 0, 0x19, 0x00, 0, 0, 0, 0] hio⟩

/-- C6: a decoded value outside the plausibility window [-40, 125] is
reported as a warning line with its numeric value and raw report unchanged
(neither clamped nor discarded); a value inside the window is reported as a
normal reading line carrying the value and the raw 8-byte report. -/
theorem c6_plausibility_window :
    ∀ (t : ℚ) (raw : List Nat),
      (report_line t raw).value = t ∧
      (report_line t raw).rawReport = raw ∧
      (¬ (-40 ≤ t ∧ t ≤ 125) → report_line t raw = .warnOutOfRange t raw) ∧
      ((-40 ≤ t ∧ t ≤ 125) → report_line t raw = .reading t raw) := by
  intro t raw
  unfold report_line
  by_cases h : -40 ≤ t ∧ t ≤ 125 <;>
    simp [h, ReportLine.value, ReportLine.rawReport]

theorem c6_plausibility_window_witness :
    (¬ ((-40 : ℚ) ≤ 150 ∧ (150 : ℚ) ≤ 125) →
      report_line 150 [0, 0, 0x96, 0, 0, 0, 0, 0] =
        .warnOutOfRange 150 [0, 0, 0x96, 0, 0, 0, 0, 0]) ∧
    ¬ ((-40 : ℚ) ≤ 150 ∧ (150 : ℚ) ≤ 125) ∧
    (report_line 150 [0, 0, 0x96, 0, 0, 0, 0, 0]).value = 150 :=
  ⟨(c6_plausibility_window 150 [0, 0, 0x96, 0, 0, 0, 0, 0]).2.2.1,
   by norm_num,
   (c6_plausibility_window 150 [0, 0, 0x96, 0, 0, 0, 0, 0]).1⟩

/-! ### DeviceLocator (`open_temper`, lines 17-30) -/

/-- One entry of `hid.enumerate`'s result: the descriptor fields the
program inspects.  `usage_page`/`usage` are optional because the program
reads them with `dict.get`. -/
structure Descriptor where
  vendor_id : Nat
  product_id : Nat
  usage_page : Option Nat
  usage : Option Nat
  path : Nat
deriving DecidableEq

/-- `hid.enumerate(vid, pid)`: the host's descriptor list restricted, in
order, to the entries with the given vendor and product id (the documented
behaviour of the external HID library). -/
def hid_enumerate (vid pid : Nat) (host : List Descriptor) : List Descriptor :=
  host.filter (fun d => d.vendor_id == vid && d.product_id == pid)

/-- The filter applied by the `for` loop in `open_temper`:
`d.get("usage_page") == USAGE_PAGE_SENSOR and d.get("usage") == USAGE_SENSOR`. -/
def sensorInterface (d : Descriptor) : Bool :=
  d.usage_page == some USAGE_PAGE_SENSOR && d.usage == some USAGE_SENSOR

/-- The descriptor selected by `open_temper`: the first entry of
`hid.enumerate(VENDOR_ID, PRODUCT_ID)` whose usage-page and usage match. -/
def find_temper (host : List Descriptor) : Option Descriptor :=
  (hid_enumerate VENDOR_ID PRODUCT_ID host).find? sensorInterface

/-- `open_temper()`: `None` when nothing matched; otherwise the result of
`dev.open_path(d["path"])` on the first match — an exception raised there
(modelled by `openPath` returning `.error`) propagates to the caller. -/
def open_temper (host : List Descriptor) (openPath : Nat → Except Unit Nat) :
    Except Unit (Option Nat) :=
  match find_temper host with
  | some d => (openPath d.path).map some
  | none => .ok none

/-- Matching all four constants at once. -/
def matchesTemper (d : Descriptor) : Bool :=
  (d.vendor_id == VENDOR_ID && d.product_id == PRODUCT_ID) && sensorInterface d

lemma find?_filter_eq {α : Type} (q p : α → Bool) (l : List α) :
    (l.filter q).find? p = l.find? (fun a => q a && p a) := by
  induction l with
  | nil => rfl
  | cons a l ih =>
    cases hq : q a <;> cases hp : p a <;>
      simp [List.filter_cons, List.find?_cons, hq, hp, ih]

lemma find?_append_of_none {α : Type} (p : α → Bool) (pre rest : List α)
    (h : ∀ d ∈ pre, ¬ p d) : (pre ++ rest).find? p = rest.find? p := by
  induction pre with
  | nil => rfl
  | cons a l ih =>
    have ha : p a = false := by
      have := h a (List.mem_cons_self a l)
      revert this
      cases p a <;> simp
    have htail : (l ++ rest).find? p = rest.find? p :=
      ih fun d hd => h d (List.mem_cons_of_mem _ hd)
    simpa [List.find?_cons, ha] using htail

/-- C8: the locator returns the first descriptor in enumeration order
matching vendor id 0x0C45, product id 0x7401, usage-page 0xFF00 and
usage 0x01; it returns `none` exactly when no descriptor matches; with two
matching descriptors it picks the first. -/
theorem c8_locator_first_match :
    (∀ host : List Descriptor, find_temper host = host.find? matchesTemper) ∧
    (∀ host : List Descriptor,
      (find_temper host = none ↔ ∀ d ∈ host, ¬ matchesTemper d)) ∧
    (∀ d₁ d₂ : Descriptor, ∀ pre mid : List Descriptor,
      matchesTemper d₁ → matchesTemper d₂ →
      (∀ d ∈ pre, ¬ matchesTemper d) →
      find_temper (pre ++ (d₁ :: (mid ++ [d₂]))) = some d₁) := by
  have hfind : ∀ host : List Descriptor, find_temper host = host.find? matchesTemper := by
    intro host
    unfold find_temper hid_enumerate matchesTemper
    exact find?_filter_eq _ _ host
  refine ⟨hfind, fun host => ?_, fun d₁ d₂ pre mid h₁ h₂ hpre => ?_⟩
  · rw [hfind]
    simp [List.find?_eq_none]
  · rw [hfind, find?_append_of_none matchesTemper pre (d₁ :: (mid ++ [d₂])) hpre]
    simp [List.find?_cons, h₁]

theorem c8_locator_first_match_witness :
    find_temper [⟨0x0C45, 0x7401, some 0xFF00, some 0x01, 11⟩,
                 ⟨0x0C45, 0x7401, some 0xFF00, some 0x01, 22⟩] =
      some ⟨0x0C45, 0x7401, some 0xFF00, some 0x01, 11⟩ ∧
    matchesTemper ⟨0x0C45, 0x7401, some 0xFF00, some 0x01, 11⟩ = true ∧
    matchesTemper ⟨0x0C45, 0x7401, some 0xFF00, some 0x01, 22⟩ = true :=
  ⟨c8_locator_first_match.2.2
      ⟨0x0C45, 0x7401, some 0xFF00, some 0x01, 11⟩
      ⟨0x0C45, 0x7401, some 0xFF00, some 0x01, 22⟩ [] []
      (by decide) (by decide) (by intro d hd; simp at hd),
   by decide, by decide⟩

/-! ### SupervisorLoop (`main`, lines 72-126)

One `mainStep` is one iteration of the `while True` body: one search
attempt when `dev is None` (one pass of the inner `while dev is None`
loop), or one measurement attempt when a device is held.  The environment
of an iteration (`EnvStep`) supplies what the outside world does: whether
a `KeyboardInterrupt` is delivered while no exchange is in flight, what
`hid.enumerate` reports, what `open_path` does, the outcome of
`read_temperature` (including a `KeyboardInterrupt` delivered during the
exchange or the cadence sleep), and whether `dev.close()` raises.

Exception dispatch of the measurement `try`, from the source:
`except (IOError, OSError)` — in Python 3 `IOError` is `OSError` — closes
the device (failures swallowed), drops it and sleeps 1 s;
`except Exception` does the same with a 2 s sleep; `ValueError` raised by
`decode_temp_from_report` is not an `OSError`, so it reaches the second
handler; `KeyboardInterrupt` is not an `Exception`, so it escapes both and
reaches the outer `except KeyboardInterrupt`, after which the `finally`
closes the held device.  An exception raised by `open_temper` is caught by
no handler (the outer `try` only catches `KeyboardInterrupt`): the
`finally` runs with `dev is None` and the exception leaves `main`. -/

inductive SupState where
  | disconnected
  | connected (h : Nat)
  | terminated (clean : Bool)
deriving DecidableEq

/-- Observable actions of one loop iteration. -/
inductive Ev where
  | slept (secs : ℚ)
  | openedDev (h : Nat)
  | closeAttempt (h : Nat) (closeRaised : Bool)
  | printed (line : ReportLine)
  | exitClean
deriving DecidableEq

/-- What the environment does during one iteration. -/
structure EnvStep where
  interrupt : Bool
  host : List Descriptor
  openPath : Nat → Except Unit Nat
  exchResult : Except PyExc (ℚ × List Nat)
  closeFails : Bool

/-- One iteration of `main`'s loop. -/
def mainStep (s : SupState) (e : EnvStep) : SupState × List Ev :=
  match s with
  | .terminated c => (.terminated c, [])
  | .disconnected =>
    if e.interrupt then
      (.terminated true, [.exitClean])
    else
      match open_temper e.host e.openPath with
      | .error _ => (.terminated false, [])
      | .ok none => (.disconnected, [.slept 2])
      | .ok (some h) => (.connected h, [.openedDev h])
  | .connected h =>
    match e.exchResult with
    | .ok (t, raw) => (.connected h, [.printed (report_line t raw), .slept 1])
    | .error (.osError _) => (.disconnected, [.closeAttempt h e.closeFails, .slept 1])
    | .error .valueError => (.disconnected, [.closeAttempt h e.closeFails, .slept 2])
    | .error .otherExc => (.disconnected, [.closeAttempt h e.closeFails, .slept 2])
    | .error .keyboardInterrupt =>
      (.terminated true, [.closeAttempt h e.closeFails, .exitClean])

/-- A run: fold `mainStep` over a list of environments, collecting the
event trace. -/
def runLoop (s : SupState) : List EnvStep → SupState × List Ev
  | [] => (s, [])
  | e :: es =>
    let this := mainStep s e
    let rest := runLoop this.1 es
    (rest.1, this.2 ++ rest.2)

/-- All states a run passes through, the initial one included. -/
def runStates (s : SupState) : List EnvStep → List SupState
  | [] => [s]
  | e :: es => s :: runStates (mainStep s e).1 es

/-- The handles the loop variable `dev` references in a given state. -/
def stateHeld : SupState → List Nat
  | .connected h => [h]
  | _ => []

/-- Effect of one event on the list of referenced handles: an open adds
the handle, a close attempt (followed in the code by `dev = None`)
removes it. -/
def heldStep (held : List Nat) : Ev → List Nat
  | .openedDev h => h :: held
  | .closeAttempt h _ => held.erase h
  | _ => held

/-- Handles referenced after a sequence of events. -/
def heldAfter (evs : List Ev) (init : List Nat) : List Nat :=
  evs.foldl heldStep init

lemma heldAfter_append (l₁ l₂ : List Ev) (init : List Nat) :
    heldAfter (l₁ ++ l₂) init = heldAfter l₂ (heldAfter l₁ init) :=
  List.foldl_append _ _ _ _

lemma stateHeld_len (s : SupState) : (stateHeld s).length ≤ 1 := by
  cases s <;> simp [stateHeld]

/-- The events of one iteration transform the referenced-handle list of
the pre-state into that of the post-state. -/
lemma heldAfter_mainStep (s : SupState) (e : EnvStep) :
    heldAfter (mainStep s e).2 (stateHeld s) = stateHeld (mainStep s e).1 := by
  cases s with
  | terminated c => rfl
  | disconnected =>
    by_cases hi : e.interrupt <;>
      rcases ho : open_temper e.host e.openPath with u | (_ | h) <;>
      simp [mainStep, hi, ho, heldAfter, heldStep, stateHeld]
  | connected h =>
    rcases he : e.exchResult with exc | ⟨t, raw⟩
    · cases exc <;>
        simp [mainStep, he, heldAfter, heldStep, stateHeld, List.erase_cons_head]
    · simp [mainStep, he, heldAfter, heldStep, stateHeld]

/-- No iteration emits more than two events. -/
lemma mainStep_trace_len (s : SupState) (e : EnvStep) :
    (mainStep s e).2.length ≤ 2 := by
  cases s with
  | terminated c => simp [mainStep]
  | disconnected =>
    by_cases hi : e.interrupt <;>
      rcases ho : open_temper e.host e.openPath with u | (_ | h) <;>
      simp [mainStep, hi, ho]
  | connected h =>
    rcases he : e.exchResult with exc | ⟨t, raw⟩
    · cases exc <;> simp [mainStep, he]
    · simp [mainStep, he]

/-- The first event of an iteration keeps the referenced-handle count at
most one. -/
lemma heldStep_first (s : SupState) (e : EnvStep) (a : Ev) (rest : List Ev)
    (hsplit : (mainStep s e).2 = a :: rest) :
    (heldStep (stateHeld s) a).length ≤ 1 := by
  cases s with
  | terminated c => simp [mainStep] at hsplit
  | disconnected =>
    by_cases hi : e.interrupt <;>
      rcases ho : open_temper e.host e.openPath with u | (_ | h) <;>
      simp [mainStep, hi, ho] at hsplit <;>
      rcases hsplit with ⟨rfl, -⟩ <;>
      simp [heldStep, stateHeld]
  | connected h =>
    rcases he : e.exchResult with exc | ⟨t, raw⟩
    · cases exc <;> simp [mainStep, he] at hsplit <;>
        rcases hsplit with ⟨rfl, -⟩ <;>
        simp [heldStep, stateHeld, List.erase_cons_head]
    · simp [mainStep, he] at hsplit
      rcases hsplit with ⟨rfl, -⟩
      simp [heldStep, stateHeld]

/-- Within one iteration, after any prefix of its events, at most one
handle is referenced. -/
lemma heldAfter_mainStep_pre (s : SupState) (e : EnvStep) (pre suf : List Ev)
    (hsplit : (mainStep s e).2 = pre ++ suf) :
    (heldAfter pre (stateHeld s)).length ≤ 1 := by
  rcases pre with - | ⟨a, pre⟩
  · exact stateHeld_len s
  rcases pre with - | ⟨b, pre⟩
  · have := heldStep_first s e a (suf) (by simpa using hsplit)
    simpa [heldAfter] using this
  · have hlen := mainStep_trace_len s e
    rw [hsplit] at hlen
    simp [List.length_append] at hlen
    obtain ⟨hpre, hsuf⟩ := hlen
    subst hpre
    subst hsuf
    rw [List.append_nil] at hsplit
    have := heldAfter_mainStep s e
    rw [hsplit] at this
    rw [this]
    exact stateHeld_len _

lemma runLoop_cons (s : SupState) (e : EnvStep) (es : List EnvStep) :
    (runLoop s (e :: es)).2 = (mainStep s e).2 ++ (runLoop (mainStep s e).1 es).2 :=
  rfl

/-- Across a whole run, after any prefix of the event trace, at most one
handle is referenced. -/
lemma heldAfter_runLoop_pre :
    ∀ (es : List EnvStep) (s : SupState) (pre suf : List Ev),
      (runLoop s es).2 = pre ++ suf → (heldAfter pre (stateHeld s)).length ≤ 1 := by
  intro es
  induction es with
  | nil =>
    intro s pre suf hsplit
    simp [runLoop] at hsplit
    obtain ⟨hpre, -⟩ := hsplit
    subst hpre
    exact stateHeld_len s
  | cons e es ih =>
    intro s pre suf hsplit
    rw [runLoop_cons] at hsplit
    rcases List.append_eq_append_iff.mp hsplit with ⟨a, ha₁, ha₂⟩ | ⟨c, hc₁, hc₂⟩
    · subst ha₁
      rw [heldAfter_append, heldAfter_mainStep]
      exact ih (mainStep s e).1 a suf ha₂
    · exact heldAfter_mainStep_pre s e pre c hc₁

/-- An `openedDev` event can only be the sole event of a search iteration
performed while no handle is referenced. -/
lemma openedDev_only_when_empty (s : SupState) (e : EnvStep) (pre suf : List Ev)
    (h' : Nat) (hsplit : (mainStep s e).2 = pre ++ (Ev.openedDev h' :: suf)) :
    pre = [] ∧ stateHeld s = [] := by
  cases s with
  | terminated c => simp [mainStep] at hsplit
  | disconnected =>
    by_cases hi : e.interrupt <;>
      rcases ho : open_temper e.host e.openPath with u | (_ | h) <;>
      simp [mainStep, hi, ho] at hsplit <;>
      rcases pre with - | ⟨a, - | ⟨b, pre⟩⟩ <;>
      simp_all [stateHeld]
  | connected h =>
    rcases he : e.exchResult with exc | ⟨t, raw⟩
    · cases exc <;> simp [mainStep, he] at hsplit <;>
        rcases pre with - | ⟨a, - | ⟨b, pre⟩⟩ <;>
        simp_all [stateHeld]
    · simp [mainStep, he] at hsplit
      rcases pre with - | ⟨a, - | ⟨b, pre⟩⟩ <;> simp_all [stateHeld]

/-! ### Claims about the supervisor loop -/

/-- The environment of C1's failing run: enumeration reports exactly the
matching TEMPer descriptor, but `open_path` raises. -/
def envOpenRaises : EnvStep where
  interrupt := false
  host := [⟨0x0C45, 0x7401, some 0xFF00, some 0x01, 0⟩]
  openPath := fun _ => .error ()
  exchResult := .error .otherExc
  closeFails := false

/-- C1: the spec says an open failure is treated as NotFound-equivalent and
fully recovered, but in the code an exception raised by
`dev.open_path` is caught by no handler: with a matching descriptor found
and open raising, the next state is unclean termination, not the searching
state, and every later step stays terminated — the monitoring loop is dead.
A 2 s retry happens only when `open_temper` returns `None`. -/
theorem c1_open_raise_kills_loop :
    find_temper envOpenRaises.host =
      some ⟨0x0C45, 0x7401, some 0xFF00, some 0x01, 0⟩ ∧
    open_temper envOpenRaises.host envOpenRaises.openPath = .error () ∧
    mainStep .disconnected envOpenRaises = (.terminated false, []) ∧
    (.terminated false : SupState) ≠ .disconnected ∧
    (∀ e : EnvStep, mainStep (.terminated false) e = (.terminated false, [])) ∧
    (∀ e : EnvStep, e.interrupt = false →
      open_temper e.host e.openPath = .ok none →
      mainStep .disconnected e = (.disconnected, [.slept 2])) := by
  refine ⟨by decide, by decide, by decide, by decide, fun e => rfl, ?_⟩
  intro e hi ho
  simp [mainStep, hi, ho]

/-- The environment of C2's counterexample: the device answers the exchange
with a 3-byte reply, so `decode_temp_from_report` raises `ValueError`. -/
def envShortReply : EnvStep where
  interrupt := false
  host := []
  openPath := fun _ => .ok 0
  exchResult := (read_temperature ⟨1, [0, 1, 2]⟩).2
  closeFails := false

/-- C2 counterexample: a reply shorter than 4 bytes makes the exchange
raise `ValueError`; the supervisor then closes and sleeps 2 s — the event
`slept 1` claimed by the spec does not occur in this iteration. -/
theorem c2_decode_backoff_counterexample :
    (read_temperature ⟨1, [0, 1, 2]⟩).2 = .error .valueError ∧
    mainStep (.connected 7) envShortReply =
      (.disconnected, [.closeAttempt 7 false, .slept 2]) ∧
    Ev.slept 1 ∉ (mainStep (.connected 7) envShortReply).2 ∧
    Ev.slept 2 ∈ (mainStep (.connected 7) envShortReply).2 := by
  have hexch : (read_temperature ⟨1, [0, 1, 2]⟩).2 = .error .valueError := by
    simp [read_temperature, decode_temp_from_report]
  have hstep : mainStep (.connected 7) envShortReply =
      (.disconnected, [.closeAttempt 7 false, .slept 2]) := by
    simp [mainStep, envShortReply, hexch]
  refine ⟨hexch, hstep, ?_, ?_⟩
  · rw [hstep]
    simp
  · rw [hstep]
    simp

/-- C2 amended: on a `DecodeError` (a `ValueError`, not an `OSError`) in
the `Connected` state, the supervisor closes the handle and sleeps the 2 s
backoff — the same backoff as an unclassified failure — before returning
to `Disconnected`; the 1 s backoff is reserved for `OSError` I/O
failures. -/
theorem c2_decode_backoff :
    ∀ (h : Nat) (e : EnvStep), e.exchResult = .error .valueError →
      mainStep (.connected h) e =
        (.disconnected, [.closeAttempt h e.closeFails, .slept 2]) ∧
      (∀ e' : EnvStep, e'.exchResult = .error .otherExc →
        e'.closeFails = e.closeFails →
        (mainStep (.connected h) e').2 = (mainStep (.connected h) e).2) ∧
      (∀ (e'' : EnvStep) (m : OsMsg), e''.exchResult = .error (.osError m) →
        (mainStep (.connected h) e'').2 =
          [.closeAttempt h e''.closeFails, .slept 1]) := by
  intro h e he
  refine ⟨by simp [mainStep, he], ?_, ?_⟩
  · intro e' he' hcf
    simp [mainStep, he, he', hcf]
  · intro e'' m he''
    simp [mainStep, he'']

theorem c2_decode_backoff_witness :
    envShortReply.exchResult = .error .valueError ∧
    mainStep (.connected 7) envShortReply =
      (.disconnected, [.closeAttempt 7 envShortReply.closeFails, .slept 2]) :=
  have hexch : envShortReply.exchResult = .error .valueError := by
    simp [envShortReply, read_temperature, decode_temp_from_report]
  ⟨hexch, (c2_decode_backoff 7 envShortReply hexch).1⟩

/-- C7: on any `OSError` raised while connected — write failure or read
timeout — the supervisor performs exactly one close attempt on the held
handle (whether or not the close itself raises), drops the handle, sleeps
the 1 s backoff and is back in the `Disconnected` search state, not
terminated. -/
theorem c7_ioerror_recovery :
    ∀ (h : Nat) (e : EnvStep) (m : OsMsg), e.exchResult = .error (.osError m) →
      mainStep (.connected h) e =
        (.disconnected, [.closeAttempt h e.closeFails, .slept 1]) ∧
      ((mainStep (.connected h) e).2.filter
        (fun ev => match ev with | .closeAttempt _ _ => true | _ => false)).length = 1 ∧
      (∀ c : Bool, (mainStep (.connected h) e).1 ≠ .terminated c) := by
  intro h e m he
  have hstep : mainStep (.connected h) e =
      (.disconnected, [.closeAttempt h e.closeFails, .slept 1]) := by
    simp [mainStep, he]
  refine ⟨hstep, ?_, ?_⟩
  · rw [hstep]
    simp [List.filter]
  · intro c
    rw [hstep]
    simp

/-- The environment of C7's witness: the device is unplugged, the write
reports 0 bytes, and the subsequent `dev.close()` itself raises — which is
swallowed. -/
def envWriteFails : EnvStep where
  interrupt := false
  host := []
  openPath := fun _ => .ok 0
  exchResult := (read_temperature ⟨0, []⟩).2
  closeFails := true

theorem c7_ioerror_recovery_witness :
    envWriteFails.exchResult = .error (.osError .writeFailed) ∧
    mainStep (.connected 3) envWriteFails =
      (.disconnected, [.closeAttempt 3 true, .slept 1]) :=
  have hexch : envWriteFails.exchResult = .error (.osError .writeFailed) := by
    simp [envWriteFails, read_temperature]
  ⟨hexch, (c7_ioerror_recovery 3 envWriteFails .writeFailed hexch).1⟩

/-- C9: along every run of the supervisor started disconnected, every state
references at most one handle, after every prefix of the emitted event
trace at most one handle is referenced, and a handle is only ever opened
as the sole event of an iteration in which no handle is referenced — a
close attempt always precedes the drop of an abandoned handle within the
same iteration, before any new open can happen. -/
theorem c9_at_most_one_handle :
    ∀ es : List EnvStep,
      (∀ s, s ∈ runStates .disconnected es → (stateHeld s).length ≤ 1) ∧
      (∀ pre suf, (runLoop .disconnected es).2 = pre ++ suf →
        (heldAfter pre []).length ≤ 1) ∧
      (∀ (s : SupState) (e : EnvStep) (pre suf : List Ev) (h' : Nat),
        (mainStep s e).2 = pre ++ (Ev.openedDev h' :: suf) →
        pre = [] ∧ stateHeld s = []) := by
  intro es
  refine ⟨fun s _ => stateHeld_len s, ?_, ?_⟩
  · intro pre suf hsplit
    exact heldAfter_runLoop_pre es .disconnected pre suf hsplit
  · intro s e pre suf h' hsplit
    exact openedDev_only_when_empty s e pre suf h' hsplit

/-- An iteration in which an interrupt arrives while disconnected. -/
def envInterrupted : EnvStep where
  interrupt := true
  host := []
  openPath := fun _ => .ok 0
  exchResult := .error .otherExc
  closeFails := false

/-- An iteration in which the matching descriptor is found and opened. -/
def envFound : EnvStep where
  interrupt := false
  host := [⟨0x0C45, 0x7401, some 0xFF00, some 0x01, 5⟩]
  openPath := fun p => .ok p
  exchResult := .error .otherExc
  closeFails := false

theorem c9_at_most_one_handle_witness :
    ((stateHeld .disconnected).length ≤ 1) ∧
    ((heldAfter [Ev.exitClean] []).length ≤ 1) ∧
    (([] : List Ev) = [] ∧ stateHeld SupState.disconnected = []) :=
  ⟨(c9_at_most_one_handle [envInterrupted]).1 .disconnected (by decide),
   (c9_at_most_one_handle [envInterrupted]).2.1 [Ev.exitClean] [] (by decide),
   (c9_at_most_one_handle [envFound]).2.2 .disconnected envFound [] [] 5 (by decide)⟩

/-- C10: a `KeyboardInterrupt` while a handle is held reaches the outer
handler and the `finally` block: exactly one close attempt is made, any
exception it raises is swallowed (the outcome does not depend on
`closeFails`), and the process terminates cleanly; an interrupt arriving
while disconnected terminates cleanly with no close attempt at all. -/
theorem c10_interrupt_clean_shutdown :
    ∀ (e : EnvStep) (h : Nat),
      (e.exchResult = .error .keyboardInterrupt →
        mainStep (.connected h) e =
          (.terminated true, [.closeAttempt h e.closeFails, .exitClean]) ∧
        ((mainStep (.connected h) e).2.filter
          (fun ev => match ev with | .closeAttempt _ _ => true | _ => false)).length
          = 1) ∧
      (e.interrupt = true →
        mainStep .disconnected e = (.terminated true, [.exitClean]) ∧
        (∀ (h' : Nat) (b : Bool),
          Ev.closeAttempt h' b ∉ (mainStep .disconnected e).2)) := by
  intro e h
  constructor
  · intro he
    have hstep : mainStep (.connected h) e =
        (.terminated true, [.closeAttempt h e.closeFails, .exitClean]) := by
      simp [mainStep, he]
    refine ⟨hstep, ?_⟩
    rw [hstep]
    simp [List.filter]
  · intro hi
    have hstep : mainStep .disconnected e = (.terminated true, [.exitClean]) := by
      simp [mainStep, hi]
    refine ⟨hstep, ?_⟩
    intro h' b
    rw [hstep]
    simp

/-- An iteration in which a `KeyboardInterrupt` arrives during the
exchange while connected, and the close attempted by `finally` raises. -/
def envKeyInterrupt : EnvStep where
  interrupt := false
  host := []
  openPath := fun _ => .ok 0
  exchResult := .error .keyboardInterrupt
  closeFails := true

theorem c10_interrupt_clean_shutdown_witness :
    (mainStep (.connected 4) envKeyInterrupt =
      (.terminated true, [.closeAttempt 4 true, .exitClean])) ∧
    (mainStep .disconnected envInterrupted = (.terminated true, [.exitClean])) :=
  ⟨((c10_interrupt_clean_shutdown envKeyInterrupt 4).1 rfl).1,
   ((c10_interrupt_clean_shutdown envInterrupted 4).2 rfl).1⟩
